import Mathlib

/-!
Verification of the Java type checker in `java_type_checker/expressions.py`.

The expression checker (`expressions.py`) is embedded directly from the
source.  The type model it imports (`types.py`: `JavaType`,
`JavaBuiltInTypes`, `is_subtype_of`, `method_named`, `constructor`,
`NoSuchJavaMethod`) is not part of the provided sources, so it is modelled
from the specification's section on the Type Model.

Python exceptions are embedded as `Except`: a `check_types`/`static_type`
call that raises is a computation returning `.error`.  Besides the four
`JavaTypeError` kinds, a Python-level crash (IndexError from list
indexing, AttributeError from querying a missing `constructor` attribute)
is a distinct `PyError` constructor, so that reachability of those crash
branches can be reasoned about.
-/

set_option maxHeartbeats 1000000

/-- Modelled from the spec: the Type Model of `types.py` (missing from the
provided sources).  Variants: primitive types, the null type, the object
root type, and object types with a name, an optional superclass (an absent
superclass means the chain continues to the object root, since every
object type is transitively a subtype of the root), a list of named
methods (name, parameter types, return type) and exactly one constructor
signature (its parameter types). -/
inductive JavaType where
  | primitive (name : String)
  | nullType
  | objectRoot
  | objectType (name : String) (superclass : Option JavaType)
      (methods : List (String × List JavaType × JavaType))
      (constructorParams : List JavaType)
  deriving Repr

mutual

/-- Equality test on types, standing in for Python's identity test between
type objects (two structurally equal type values model the same type
object). -/
def JavaType.beq : JavaType → JavaType → Bool
  | .primitive n1, .primitive n2 => n1 == n2
  | .nullType, .nullType => true
  | .objectRoot, .objectRoot => true
  | .objectType n1 s1 ms1 c1, .objectType n2 s2 ms2 c2 =>
    n1 == n2 && beqOptType s1 s2 && beqMethods ms1 ms2 && beqTypeList c1 c2
  | _, _ => false
  termination_by structural x => x

/-- Equality test on optional types. -/
def beqOptType : Option JavaType → Option JavaType → Bool
  | none, none => true
  | some a, some b => a.beq b
  | _, _ => false
  termination_by structural x => x

/-- Equality test on type lists. -/
def beqTypeList : List JavaType → List JavaType → Bool
  | [], [] => true
  | a :: as1, b :: bs1 => a.beq b && beqTypeList as1 bs1
  | _, _ => false
  termination_by structural x => x

/-- Equality test on method lists. -/
def beqMethods : List (String × List JavaType × JavaType) →
    List (String × List JavaType × JavaType) → Bool
  | [], [] => true
  | (n1, ps1, r1) :: rest1, (n2, ps2, r2) :: rest2 =>
    n1 == n2 && beqTypeList ps1 ps2 && r1.beq r2 && beqMethods rest1 rest2
  | _, _ => false
  termination_by structural x => x

end

instance : BEq JavaType := ⟨JavaType.beq⟩

/-- Modelled from the spec: a type is a reference type iff it is the
object root or an object type. -/
def JavaType.is_reference : JavaType → Bool
  | .objectRoot => true
  | .objectType _ _ _ _ => true
  | _ => false

/-- The `name` attribute of a type, used in diagnostic messages. -/
def JavaType.name : JavaType → String
  | .primitive n => n
  | .nullType => "null"
  | .objectRoot => "Object"
  | .objectType n _ _ _ => n

/-- Modelled from the spec: `is_subtype_of(candidate, target)`.  If the two
are the same type, true.  If the candidate is the null type, true iff the
target is a reference type.  Otherwise walk the candidate's superclass
chain (the candidate itself included) until the target is found or the
chain is exhausted.  An object type with no explicit superclass has the
object root as the next element of its chain; the object root itself ends
the chain, so for it only the same-type test can succeed. -/
def JavaType.is_subtype_of : JavaType → JavaType → Bool
  | c, t =>
    if c.beq t then true
    else
      match c with
      | .nullType => t.is_reference
      | .objectType _ (some s) _ _ => s.is_subtype_of t
      | .objectType _ none _ _ => JavaType.objectRoot.beq t
      | _ => false

/-- First method with the given name in a method list. -/
def findMethod (name : String) :
    List (String × List JavaType × JavaType) → Option (List JavaType × JavaType)
  | [] => none
  | (n, ps, r) :: rest => if n = name then some (ps, r) else findMethod name rest

/-- Modelled from the spec: `method_named(type, name)` searches the type
itself, then its ancestors in order, returning the first match; `none` is
the `NoSuchMethod` lookup failure.  Only object types carry methods; the
object root of this model declares none. -/
def JavaType.method_named : JavaType → String → Option (List JavaType × JavaType)
  | .objectType _ sup ms _, name =>
    match findMethod name ms with
    | some sig => some sig
    | none =>
      match sup with
      | some s => s.method_named name
      | none => none
  | _, _ => none

/-- Modelled from the spec: `constructor(type)`.  Every instantiable object
type has exactly one constructor signature; types that are not
instantiable have none (`none` here; querying it in Python would be an
AttributeError).  The object root is given an empty-parameter
constructor. -/
def JavaType.constructor_parameter_types : JavaType → Option (List JavaType)
  | .objectType _ _ _ ctorParams => some ctorParams
  | .objectRoot => some []
  | _ => none

/-- Modelled from the spec: the built-in types registry `JavaBuiltInTypes`. -/
def JavaBuiltInTypes.OBJECT : JavaType := .objectRoot

/-- Modelled from the spec: the built-in null type. -/
def JavaBuiltInTypes.NULL : JavaType := .nullType

/-- Modelled from the spec: the built-in `int` primitive type. -/
def JavaBuiltInTypes.INT : JavaType := .primitive "int"

/-- Modelled from the spec: the built-in `boolean` primitive type. -/
def JavaBuiltInTypes.BOOLEAN : JavaType := .primitive "boolean"

/-- The expression AST of `expressions.py`: `JavaVariable`, `JavaLiteral`,
`JavaNullLiteral` (a literal fixed to the null type), `JavaAssignment`,
`JavaMethodCall` and `JavaConstructorCall`. -/
inductive JavaExpression where
  | variable (name : String) (declared_type : JavaType)
  | literal (value : String) (type : JavaType)
  | nullLiteral
  | assignment (lhs : JavaExpression) (rhs : JavaExpression)
  | methodCall (receiver : JavaExpression) (method_name : String)
      (args : List JavaExpression)
  | constructorCall (instantiated_type : JavaType) (args : List JavaExpression)
  deriving Repr

/-- The four concrete kinds of `JavaTypeError`: `NoSuchJavaMethod` (from
the type model's lookup), `JavaTypeMismatchError`, `JavaArgumentCountError`
and `JavaIllegalInstantiationError`, each carrying its diagnostic
message. -/
inductive JavaTypeError where
  | noSuchMethod (msg : String)
  | typeMismatch (msg : String)
  | argumentCountMismatch (msg : String)
  | illegalInstantiation (msg : String)
  deriving DecidableEq, Repr

/-- Outcome of a Python computation: a `JavaTypeError`, or a Python-level
crash (IndexError from out-of-range list indexing in
`check_argument_match`, AttributeError from reading `constructor` off a
type that has none). -/
inductive PyError where
  | javaError (e : JavaTypeError)
  | indexError
  | attributeError (msg : String)
  deriving DecidableEq, Repr

/-- `static_type` of `expressions.py`: the compile-time type of an
expression.  A variable's is its declared type, a literal's its type, the
null literal's the null type, an assignment's is its lhs's static type, a
method call's is the return type of the method resolved by name on the
receiver's static type (the `NoSuchJavaMethod` failure propagating), a
constructor call's is the instantiated type itself. -/
def static_type : JavaExpression → Except JavaTypeError JavaType
  | .variable _ declared_type => .ok declared_type
  | .literal _ type => .ok type
  | .nullLiteral => .ok .nullType
  | .assignment lhs _ => static_type lhs
  | .methodCall receiver method_name _ =>
    match static_type receiver with
    | .error e => .error e
    | .ok receiver_type =>
      match receiver_type.method_named method_name with
      | some (_, return_type) => .ok return_type
      | none =>
        .error (.noSuchMethod (receiver_type.name ++ " has no method named " ++ method_name))
  | .constructorCall instantiated_type _ => .ok instantiated_type

/-- `_names` of `expressions.py`, applied to a list of types: formats the
type names as a parenthesised comma-separated list. -/
def _names_types (ts : List JavaType) : String :=
  "(" ++ String.intercalate ", " (ts.map JavaType.name) ++ ")"

/-- `_names` of `expressions.py`, applied to a list of expressions: formats
each element's static type's name.  (At every use site all elements have
already passed `check_types`, so their static types resolve; a failing
element is rendered as "?" in place of the source's secondary crash.) -/
def _names_exprs (es : List JavaExpression) : String :=
  "(" ++ String.intercalate ", "
    (es.map fun e =>
      match static_type e with
      | .ok t => t.name
      | .error _ => "?") ++ ")"

/-- The loop of `check_argument_match`, started at index `i`: for each
index over the expected-type list, fetch `given_expr_list[i]` (an
out-of-range index is a Python IndexError), take its static type, and
return false on the first position whose given type is not a subtype of
the expected type; true when the loop completes. -/
def check_argument_match_from (given_expr_list : List JavaExpression) :
    List JavaType → Nat → Except PyError Bool
  | [], _ => .ok true
  | expected_type :: rest, i =>
    match given_expr_list[i]? with
    | none => .error .indexError
    | some g =>
      match static_type g with
      | .error e => .error (.javaError e)
      | .ok given_type =>
        if ! given_type.is_subtype_of expected_type then .ok false
        else check_argument_match_from given_expr_list rest (i + 1)

/-- `check_argument_match` of `expressions.py`: checks whether all the
arguments match the expected types, position by position. -/
def check_argument_match (given_expr_list : List JavaExpression)
    (expected_type_list : List JavaType) : Except PyError Bool :=
  check_argument_match_from given_expr_list expected_type_list 0

/-- The `name` attribute read off `self.lhs` when formatting the
assignment error message; the lhs is documented to be a `JavaVariable`
(on any other node the Python read would crash). -/
def JavaExpression.lhsName : JavaExpression → String
  | .variable name _ => name
  | _ => ""

/-- Sample object type `String` (no explicit superclass: its chain
continues to the object root), used to exercise the checker. -/
def tString : JavaType := .objectType "String" none [] []

/-- Sample object type `Animal` with a zero-parameter constructor, a
method `speak()` returning `String` and a method `feed(String, String)`
returning `String`, used to exercise the checker. -/
def tAnimal : JavaType :=
  .objectType "Animal" none
    [("speak", [], tString), ("feed", [tString, tString], tString)] []

/-- Sample object type `Dog`, subclass of `Animal`. -/
def tDog : JavaType := .objectType "Dog" (some tAnimal) [] []

mutual

/-- `check_types` of `expressions.py`.  Variables and literals always
pass.  An assignment checks its lhs then its rhs, then raises
`JavaTypeMismatchError` when the rhs's static type is not a subtype of
the lhs's.  A method call checks its receiver then each argument, resolves
the method by name on the receiver's static type (the `NoSuchJavaMethod`
failure propagating), raises `JavaArgumentCountError` when the parameter
and argument counts differ, then `JavaTypeMismatchError` when
`check_argument_match` fails.  A constructor call checks each argument,
raises `JavaIllegalInstantiationError` when the instantiated type is not
a subtype of `JavaBuiltInTypes.OBJECT`, then reads the constructor's
parameter types and performs the same count and match checks. -/
def check_types : JavaExpression → Except PyError Unit
  | .variable _ _ => .ok ()
  | .literal _ _ => .ok ()
  | .nullLiteral => .ok ()
  | .assignment lhs rhs =>
    match check_types lhs with
    | .error e => .error e
    | .ok _ =>
      match check_types rhs with
      | .error e => .error e
      | .ok _ =>
        match static_type lhs with
        | .error e => .error (.javaError e)
        | .ok lhs_type =>
          match static_type rhs with
          | .error e => .error (.javaError e)
          | .ok rhs_type =>
            if ! rhs_type.is_subtype_of lhs_type then
              .error (.javaError (.typeMismatch
                ("Cannot assign " ++ rhs_type.name ++ " to variable " ++
                  lhs.lhsName ++ " of type " ++ lhs_type.name)))
            else .ok ()
  | .methodCall receiver method_name args =>
    match check_types receiver with
    | .error e => .error e
    | .ok _ =>
      match check_all args with
      | .error e => .error e
      | .ok _ =>
        match static_type receiver with
        | .error e => .error (.javaError e)
        | .ok receiver_type =>
          match receiver_type.method_named method_name with
          | none =>
            .error (.javaError (.noSuchMethod
              (receiver_type.name ++ " has no method named " ++ method_name)))
          | some (parameter_types, _) =>
            if parameter_types.length ≠ args.length then
              .error (.javaError (.argumentCountMismatch
                ("Wrong number of arguments for " ++ receiver_type.name ++ "." ++
                  method_name ++ "(): expected " ++ toString parameter_types.length ++
                  ", got " ++ toString args.length)))
            else
              match check_argument_match args parameter_types with
              | .error e => .error e
              | .ok ok =>
                if ! ok then
                  .error (.javaError (.typeMismatch
                    (receiver_type.name ++ "." ++ method_name ++
                      "() expects arguments of type " ++ _names_types parameter_types ++
                      ", but got " ++ _names_exprs args)))
                else .ok ()
  | .constructorCall instantiated_type args =>
    match check_all args with
    | .error e => .error e
    | .ok _ =>
      if ! instantiated_type.is_subtype_of JavaBuiltInTypes.OBJECT then
        .error (.javaError (.illegalInstantiation
          ("Type " ++ instantiated_type.name ++ " is not instantiable")))
      else
        match instantiated_type.constructor_parameter_types with
        | none =>
          .error (.attributeError
            (instantiated_type.name ++ " has no attribute constructor"))
        | some parameter_types =>
          if parameter_types.length ≠ args.length then
            .error (.javaError (.argumentCountMismatch
              ("Wrong number of arguments for " ++ instantiated_type.name ++
                " constructor: expected " ++ toString parameter_types.length ++
                ", got " ++ toString args.length)))
          else
            match check_argument_match args parameter_types with
            | .error e => .error e
            | .ok ok =>
              if ! ok then
                .error (.javaError (.typeMismatch
                  (instantiated_type.name ++ " constructor expects arguments of type " ++
                    _names_types parameter_types ++ ", but got " ++ _names_exprs args)))
              else .ok ()

/-- The `for arg in self.args: arg.check_types()` loops of
`JavaMethodCall.check_types` and `JavaConstructorCall.check_types`:
checks each argument in order, propagating the first error. -/
def check_all : List JavaExpression → Except PyError Unit
  | [] => .ok ()
  | e :: rest =>
    match check_types e with
    | .error err => .error err
    | .ok _ => check_all rest

end

/-- One position of the argument-match check: the argument's static type
resolves and is a subtype of the expected type.  (Used to characterise
`check_argument_match` on argument lists whose elements all have a
resolving static type.) -/
def matchesAt (a : JavaExpression) (p : JavaType) : Bool :=
  match static_type a with
  | .ok t => t.is_subtype_of p
  | .error _ => false

/-- All positions of the argument-match check succeed, position by
position in declared order. -/
def allMatch (args : List JavaExpression) (ptypes : List JavaType) : Bool :=
  (args.zip ptypes).all fun ap => matchesAt ap.1 ap.2

/-! ### Basic facts about the checker -/

/-- The argument loop succeeds on a list iff every element of the list
passes `check_types`. -/
theorem check_all_ok_iff (args : List JavaExpression) :
    check_all args = .ok () ↔ ∀ a ∈ args, check_types a = .ok () := by
  induction args with
  | nil => simp [check_all]
  | cons a rest ih =>
    simp only [check_all]
    cases h : check_types a with
    | error e =>
      constructor
      · intro hc; cases hc
      · intro hall
        have := hall a (by simp)
        rw [h] at this
        cases this
    | ok u =>
      cases u
      simpa [h] using ih

/-- An expression that passes `check_types` has a resolving static type. -/
theorem static_of_check (e : JavaExpression) (h : check_types e = .ok ()) :
    ∃ t, static_type e = .ok t := by
  cases e
  case literal v t => exact ⟨t, rfl⟩
  case nullLiteral => exact ⟨.nullType, rfl⟩
  case constructorCall t args => exact ⟨t, rfl⟩
  case assignment lhs rhs =>
    cases h1 : static_type lhs with
    | ok t => exact ⟨t, by simp [static_type, h1]⟩
    | error e1 =>
      exfalso
      cases h2 : check_types lhs with
      | error e2 => simp [check_types, h2] at h
      | ok u =>
        cases u
        cases h3 : check_types rhs with
        | error e2 => simp [check_types, h2, h3] at h
        | ok u2 =>
          cases u2
          simp [check_types, h2, h3, h1] at h
  case methodCall recv m args =>
    cases h2 : check_types recv with
    | error e2 => simp [check_types, h2] at h
    | ok u =>
      cases u
      cases h3 : check_all args with
      | error e2 => simp [check_types, h2, h3] at h
      | ok u2 =>
        cases u2
        cases h4 : static_type recv with
        | error e2 => simp [check_types, h2, h3, h4] at h
        | ok rt =>
          cases h5 : rt.method_named m with
          | none => simp [check_types, h2, h3, h4, h5] at h
          | some sig =>
            obtain ⟨ps, ret⟩ := sig
            exact ⟨ret, by simp [static_type, h4, h5]⟩
  next n t => exact ⟨t, rfl⟩

/-- Evaluation of the argument-match loop from index `i`, on a suffix
that stays in bounds and whose elements all have resolving static types:
it returns (without a Python error) whether every position matches. -/
theorem check_argument_match_from_eval :
    ∀ (expected : List JavaType) (given : List JavaExpression) (i : Nat),
      i + expected.length ≤ given.length →
      (∀ a ∈ given, ∃ t, static_type a = .ok t) →
      check_argument_match_from given expected i =
        .ok (allMatch (given.drop i) expected) := by
  intro expected
  induction expected with
  | nil =>
    intro given i _ _
    simp [check_argument_match_from, allMatch]
  | cons p rest ih =>
    intro given i hlen hst
    have hi : i < given.length := by
      simp only [List.length_cons] at hlen
      omega
    have ha : given[i]? = some given[i] := List.getElem?_eq_getElem hi
    obtain ⟨t, ht⟩ := hst given[i] (List.getElem?_mem ha)
    have hdrop : given.drop i = given[i] :: given.drop (i + 1) :=
      (List.getElem_cons_drop given i hi).symm
    have hplen : i + 1 + rest.length ≤ given.length := by
      simp only [List.length_cons] at hlen
      omega
    rw [hdrop]
    simp only [allMatch, List.zip_cons_cons, List.all_cons]
    cases hsub : t.is_subtype_of p with
    | false =>
      simp [check_argument_match_from, ha, ht, hsub, matchesAt]
    | true =>
      have hrec := ih given (i + 1) hplen hst
      simp [check_argument_match_from, ha, ht, hsub, matchesAt, allMatch, hrec]

/-- Evaluation of `check_argument_match` itself on lists with enough
given arguments whose static types all resolve. -/
theorem check_argument_match_eval (given : List JavaExpression)
    (expected : List JavaType) (hlen : expected.length ≤ given.length)
    (hst : ∀ a ∈ given, ∃ t, static_type a = .ok t) :
    check_argument_match given expected = .ok (allMatch given expected) := by
  have := check_argument_match_from_eval expected given 0 (by omega) hst
  simpa [check_argument_match] using this

/-- `allMatch` fails exactly when some position `j` (in declared order)
pairs an argument whose static type is not a subtype of the expected
type at `j`, provided every argument's static type resolves. -/
theorem allMatch_false_iff :
    ∀ (args : List JavaExpression) (ptypes : List JavaType),
      (∀ a ∈ args, ∃ t, static_type a = .ok t) →
      (allMatch args ptypes = false ↔
        ∃ (j : Nat) (a : JavaExpression) (p : JavaType) (t : JavaType),
          args[j]? = some a ∧ ptypes[j]? = some p ∧
          static_type a = .ok t ∧ t.is_subtype_of p = false) := by
  intro args
  induction args with
  | nil =>
    intro ptypes _
    simp [allMatch]
  | cons a rest ih =>
    intro ptypes hst
    cases ptypes with
    | nil => simp [allMatch]
    | cons p prest =>
      obtain ⟨t, ht⟩ := hst a (by simp)
      have hrest : ∀ b ∈ rest, ∃ u, static_type b = .ok u := fun b hb =>
        hst b (by simp [hb])
      have hhead : matchesAt a p = t.is_subtype_of p := by
        simp [matchesAt, ht]
      constructor
      · intro hfalse
        cases hm : matchesAt a p with
        | false =>
          refine ⟨0, a, p, t, by simp, by simp, ht, ?_⟩
          rw [hhead] at hm
          exact hm
        | true =>
          have htail : allMatch rest prest = false := by
            simp only [allMatch, List.zip_cons_cons, List.all_cons, hm,
              Bool.true_and] at hfalse
            simpa [allMatch] using hfalse
          obtain ⟨j, b, q, u, hb, hq, hu, hsub⟩ := (ih prest hrest).mp htail
          exact ⟨j + 1, b, q, u, by simpa using hb, by simpa using hq, hu, hsub⟩
      · rintro ⟨j, b, q, u, hb, hq, hu, hsub⟩
        cases j with
        | zero =>
          simp only [List.getElem?_cons_zero, Option.some.injEq] at hb hq
          subst hb hq
          rw [ht] at hu
          cases hu
          simp only [allMatch, List.zip_cons_cons, List.all_cons, matchesAt, ht,
            hsub, Bool.false_and]
        | succ j' =>
          simp only [List.getElem?_cons_succ] at hb hq
          have htail : allMatch rest prest = false :=
            (ih prest hrest).mpr ⟨j', b, q, u, hb, hq, hu, hsub⟩
          simp only [allMatch] at htail
          simp only [allMatch, List.zip_cons_cons, List.all_cons, htail,
            Bool.and_false]

/-- The only `JavaTypeError` that `static_type` itself produces is the
`NoSuchJavaMethod` lookup failure. -/
theorem static_type_error_noSuchMethod :
    ∀ (e : JavaExpression) (err : JavaTypeError),
      static_type e = .error err → ∃ msg, err = .noSuchMethod msg
  | .variable _ _, err, h => by simp [static_type] at h
  | .literal _ _, err, h => by simp [static_type] at h
  | .nullLiteral, err, h => by simp [static_type] at h
  | .constructorCall _ _, err, h => by simp [static_type] at h
  | .assignment lhs rhs, err, h =>
    static_type_error_noSuchMethod lhs err (by simpa [static_type] using h)
  | .methodCall recv m args, err, h => by
    cases hr : static_type recv with
    | error e1 =>
      have herr : e1 = err := by
        simp only [static_type, hr, Except.error.injEq] at h
        exact h
      exact herr ▸ static_type_error_noSuchMethod recv e1 hr
    | ok rt =>
      cases hm : rt.method_named m with
      | some sig =>
        obtain ⟨ps, ret⟩ := sig
        exfalso
        simp [static_type, hr, hm] at h
      | none =>
        refine ⟨rt.name ++ " has no method named " ++ m, ?_⟩
        simp only [static_type, hr, hm, Except.error.injEq] at h
        exact h.symm

/-- Any error escaping the argument-match loop is either the IndexError
of an out-of-range index or a propagated `NoSuchJavaMethod` from an
argument's `static_type`. -/
theorem check_argument_match_from_error :
    ∀ (expected : List JavaType) (given : List JavaExpression) (i : Nat) (err : PyError),
      check_argument_match_from given expected i = .error err →
      err = .indexError ∨ ∃ msg, err = .javaError (.noSuchMethod msg) := by
  intro expected
  induction expected with
  | nil => intro given i err h; simp [check_argument_match_from] at h
  | cons p rest ih =>
    intro given i err h
    cases ha : given[i]? with
    | none =>
      simp only [check_argument_match_from, ha, Except.error.injEq] at h
      exact Or.inl h.symm
    | some g =>
      cases ht : static_type g with
      | error e1 =>
        simp only [check_argument_match_from, ha, ht, Except.error.injEq] at h
        obtain ⟨msg, hmsg⟩ := static_type_error_noSuchMethod g e1 ht
        exact Or.inr ⟨msg, by rw [← h, hmsg]⟩
      | ok t =>
        cases hsub : t.is_subtype_of p with
        | false => simp [check_argument_match_from, ha, ht, hsub] at h
        | true =>
          refine ih given (i + 1) err ?_
          simpa [check_argument_match_from, ha, ht, hsub] using h

/-- When the expected-type list is no longer than the given-argument
list, the argument-match loop never reaches its out-of-range branch. -/
theorem check_argument_match_from_no_indexError :
    ∀ (expected : List JavaType) (given : List JavaExpression) (i : Nat),
      i + expected.length ≤ given.length →
      check_argument_match_from given expected i ≠ .error .indexError := by
  intro expected
  induction expected with
  | nil => intro given i _ h; simp [check_argument_match_from] at h
  | cons p rest ih =>
    intro given i hlen h
    have hi : i < given.length := by
      simp only [List.length_cons] at hlen
      omega
    have ha : given[i]? = some given[i] := List.getElem?_eq_getElem hi
    cases ht : static_type given[i] with
    | error e1 => simp [check_argument_match_from, ha, ht] at h
    | ok t =>
      cases hsub : t.is_subtype_of p with
      | false => simp [check_argument_match_from, ha, ht, hsub] at h
      | true =>
        refine ih given (i + 1) ?_ ?_
        · simp only [List.length_cons] at hlen
          omega
        · simpa [check_argument_match_from, ha, ht, hsub] using h

mutual

/-- `check_types` never raises the IndexError of the argument-match
loop's out-of-range branch: every call site checks the argument count
first. -/
theorem check_types_no_indexError :
    ∀ (e : JavaExpression), check_types e ≠ .error .indexError
  | .variable _ _ => by simp [check_types]
  | .literal _ _ => by simp [check_types]
  | .nullLiteral => by simp [check_types]
  | .assignment lhs rhs => by
    intro h
    cases h1 : check_types lhs with
    | error e1 =>
      simp only [check_types, h1, Except.error.injEq] at h
      exact check_types_no_indexError lhs (by rw [h1, h])
    | ok u =>
      cases u
      cases h2 : check_types rhs with
      | error e2 =>
        simp only [check_types, h1, h2, Except.error.injEq] at h
        exact check_types_no_indexError rhs (by rw [h2, h])
      | ok u2 =>
        cases u2
        cases h3 : static_type lhs with
        | error e3 => simp [check_types, h1, h2, h3] at h
        | ok tl =>
          cases h4 : static_type rhs with
          | error e4 => simp [check_types, h1, h2, h3, h4] at h
          | ok tr =>
            cases hsub : tr.is_subtype_of tl with
            | false => simp [check_types, h1, h2, h3, h4, hsub] at h
            | true => simp [check_types, h1, h2, h3, h4, hsub] at h
  | .methodCall recv m args => by
    intro h
    cases h1 : check_types recv with
    | error e1 =>
      simp only [check_types, h1, Except.error.injEq] at h
      exact check_types_no_indexError recv (by rw [h1, h])
    | ok u =>
      cases u
      cases h2 : check_all args with
      | error e2 =>
        simp only [check_types, h1, h2, Except.error.injEq] at h
        exact check_all_no_indexError args (by rw [h2, h])
      | ok u2 =>
        cases u2
        cases h3 : static_type recv with
        | error e3 => simp [check_types, h1, h2, h3] at h
        | ok rt =>
          cases h4 : rt.method_named m with
          | none => simp [check_types, h1, h2, h3, h4] at h
          | some sig =>
            obtain ⟨ps, ret⟩ := sig
            by_cases h5 : ps.length = args.length
            · cases h6 : check_argument_match args ps with
              | error e6 =>
                have h7 : e6 = .indexError := by
                  simp only [check_types, h1, h2, h3, h4, h5, ne_eq,
                    not_true_eq_false, if_false, h6, Except.error.injEq] at h
                  exact h
                refine check_argument_match_from_no_indexError ps args 0 ?_ ?_
                · omega
                · rw [← h7]
                  exact h6
              | ok b =>
                cases b <;> simp [check_types, h1, h2, h3, h4, h5, h6] at h
            · simp [check_types, h1, h2, h3, h4, h5] at h
  | .constructorCall itype args => by
    intro h
    cases h2 : check_all args with
    | error e2 =>
      simp only [check_types, h2, Except.error.injEq] at h
      exact check_all_no_indexError args (by rw [h2, h])
    | ok u2 =>
      cases u2
      cases hinst : itype.is_subtype_of JavaBuiltInTypes.OBJECT with
      | false => simp [check_types, h2, hinst] at h
      | true =>
        cases hctor : itype.constructor_parameter_types with
        | none => simp [check_types, h2, hinst, hctor] at h
        | some ps =>
          by_cases h5 : ps.length = args.length
          · cases h6 : check_argument_match args ps with
            | error e6 =>
              have h7 : e6 = .indexError := by
                simp only [check_types, h2, hinst, hctor, h5, ne_eq,
                  not_true_eq_false, if_false, h6, Except.error.injEq] at h
                simpa using h
              refine check_argument_match_from_no_indexError ps args 0 ?_ ?_
              · omega
              · rw [← h7]
                exact h6
            | ok b =>
              cases b <;> simp [check_types, h2, hinst, hctor, h5, h6] at h
          · simp [check_types, h2, hinst, hctor, h5] at h

/-- `check_all` never raises IndexError either. -/
theorem check_all_no_indexError :
    ∀ (l : List JavaExpression), check_all l ≠ .error .indexError
  | [] => by simp [check_all]
  | e :: rest => by
    intro h
    cases h1 : check_types e with
    | error e1 =>
      simp only [check_all, h1, Except.error.injEq] at h
      exact check_types_no_indexError e (by rw [h1, h])
    | ok u =>
      cases u
      refine check_all_no_indexError rest ?_
      simpa [check_all, h1] using h

end

/-! ### Claims -/

/-- C2: for every assignment node whose lhs and rhs check successfully,
`check_types` raises `TypeMismatch` exactly when the static type of the
rhs is not a subtype of the static type of the lhs, and completes without
raising otherwise (so a subtype value may be assigned to a
supertype-declared variable but not the reverse). -/
theorem claim_C2 (lhs rhs : JavaExpression) (tl tr : JavaType)
    (hl : check_types lhs = .ok ()) (hr : check_types rhs = .ok ())
    (hlt : static_type lhs = .ok tl) (hrt : static_type rhs = .ok tr) :
    if tr.is_subtype_of tl then
      check_types (.assignment lhs rhs) = .ok ()
    else
      check_types (.assignment lhs rhs) =
        .error (.javaError (.typeMismatch
          ("Cannot assign " ++ tr.name ++ " to variable " ++ lhs.lhsName ++
            " of type " ++ tl.name))) := by
  cases hsub : tr.is_subtype_of tl with
  | true => simp [check_types, hl, hr, hlt, hrt, hsub]
  | false => simp [check_types, hl, hr, hlt, hrt, hsub]

/-- C2 witness: `Animal a = dog` succeeds, `Dog d = animal` raises
`TypeMismatch`. -/
theorem claim_C2_witness :
    (if tDog.is_subtype_of tAnimal then
      check_types (.assignment (.variable "a" tAnimal) (.variable "d" tDog)) = .ok ()
    else
      check_types (.assignment (.variable "a" tAnimal) (.variable "d" tDog)) =
        .error (.javaError (.typeMismatch
          ("Cannot assign " ++ tDog.name ++ " to variable " ++
            (JavaExpression.variable "a" tAnimal).lhsName ++ " of type " ++ tAnimal.name))))
    ∧ (if tAnimal.is_subtype_of tDog then
      check_types (.assignment (.variable "d" tDog) (.variable "a" tAnimal)) = .ok ()
    else
      check_types (.assignment (.variable "d" tDog) (.variable "a" tAnimal)) =
        .error (.javaError (.typeMismatch
          ("Cannot assign " ++ tAnimal.name ++ " to variable " ++
            (JavaExpression.variable "d" tDog).lhsName ++ " of type " ++ tDog.name)))) :=
  ⟨claim_C2 (.variable "a" tAnimal) (.variable "d" tDog) tAnimal tDog rfl rfl rfl rfl,
   claim_C2 (.variable "d" tDog) (.variable "a" tAnimal) tDog tAnimal rfl rfl rfl rfl⟩

/-- C5: for a method call whose receiver and arguments check
successfully, when the method name does not resolve on the receiver's
static type (nor its ancestor chain), the `NoSuchMethod` lookup failure
is the error `check_types` produces — it is not swallowed, and no
argument-count error can pre-empt it. -/
theorem claim_C5 (receiver : JavaExpression) (m : String)
    (args : List JavaExpression) (rt : JavaType)
    (h1 : check_types receiver = .ok ()) (h2 : check_all args = .ok ())
    (h3 : static_type receiver = .ok rt) (h4 : rt.method_named m = none) :
    check_types (.methodCall receiver m args) =
      .error (.javaError (.noSuchMethod
        (rt.name ++ " has no method named " ++ m))) := by
  simp [check_types, h1, h2, h3, h4]

/-- C5 witness: `dog.woof(lit)` raises `NoSuchMethod` (not an
argument-count error, although `woof` resolves to no signature at all). -/
theorem claim_C5_witness :
    check_types (.methodCall (.variable "d" tDog) "woof" [.literal "hi" tString]) =
      .error (.javaError (.noSuchMethod
        (tDog.name ++ " has no method named " ++ "woof"))) :=
  claim_C5 (.variable "d" tDog) "woof" [.literal "hi" tString] tDog rfl rfl rfl rfl

/-- C7: `static_type` computes, for an assignment, its lhs's static type
(for a variable lhs, its declared type); for a method call, the declared
return type of the method resolved by name on the receiver's static type;
for a constructor call, the instantiated type itself. -/
theorem claim_C7 :
    (∀ (lhs rhs : JavaExpression),
      static_type (.assignment lhs rhs) = static_type lhs)
    ∧ (∀ (n : String) (t : JavaType) (rhs : JavaExpression),
      static_type (.assignment (.variable n t) rhs) = .ok t)
    ∧ (∀ (receiver : JavaExpression) (m : String) (args : List JavaExpression)
        (rt ret : JavaType) (ps : List JavaType),
      static_type receiver = .ok rt → rt.method_named m = some (ps, ret) →
      static_type (.methodCall receiver m args) = .ok ret)
    ∧ (∀ (t : JavaType) (args : List JavaExpression),
      static_type (.constructorCall t args) = .ok t) := by
  refine ⟨fun lhs rhs => rfl, fun n t rhs => rfl, ?_, fun t args => rfl⟩
  intro receiver m args rt ret ps hrt hm
  simp [static_type, hrt, hm]

/-- C7 witness: `dog.speak()` has static type `String`, resolved through
the ancestor chain. -/
theorem claim_C7_witness :
    static_type (.methodCall (.variable "d" tDog) "speak" []) = .ok tString :=
  claim_C7.2.2.1 (.variable "d" tDog) "speak" [] tDog tString [] rfl rfl

/-- C10: `JavaMethodCall.static_type` performs only method-name lookup
and no argument validation: whenever the receiver's static type resolves
the name, it returns the method's declared return type for arbitrary
argument lists, and when the name does not resolve it propagates the
lookup failure instead of returning a type. -/
theorem claim_C10 :
    (∀ (receiver : JavaExpression) (m : String) (args : List JavaExpression)
        (rt ret : JavaType) (ps : List JavaType),
      static_type receiver = .ok rt → rt.method_named m = some (ps, ret) →
      static_type (.methodCall receiver m args) = .ok ret)
    ∧ (∀ (receiver : JavaExpression) (m : String) (args : List JavaExpression)
        (rt : JavaType),
      static_type receiver = .ok rt → rt.method_named m = none →
      static_type (.methodCall receiver m args) =
        .error (.noSuchMethod (rt.name ++ " has no method named " ++ m))) := by
  constructor
  · intro receiver m args rt ret ps hrt hm
    simp [static_type, hrt, hm]
  · intro receiver m args rt hrt hm
    simp [static_type, hrt, hm]

/-- C10 witness: `dog.speak(lit)` has one argument too many, so its
`check_types` fails, yet `static_type` still returns `String`; and
`static_type` of `dog.woof()` propagates the lookup failure. -/
theorem claim_C10_witness :
    static_type (.methodCall (.variable "d" tDog) "speak" [.literal "hi" tString]) =
      .ok tString
    ∧ static_type (.methodCall (.variable "d" tDog) "woof" []) =
      .error (.noSuchMethod (tDog.name ++ " has no method named " ++ "woof")) :=
  ⟨claim_C10.1 (.variable "d" tDog) "speak" [.literal "hi" tString] tDog tString [] rfl rfl,
   claim_C10.2 (.variable "d" tDog) "woof" [] tDog rfl rfl⟩

/-- C1: for a method call or a constructor call whose sub-expressions
all check successfully and whose callee signature resolves, a mismatch
between the number of supplied arguments and the number of declared
parameter types always produces `ArgumentCountMismatch` — never
`TypeMismatch` — whatever the supplied argument types are. -/
theorem claim_C1 :
    (∀ (receiver : JavaExpression) (m : String) (args : List JavaExpression)
        (rt ret : JavaType) (ps : List JavaType),
      check_types receiver = .ok () → check_all args = .ok () →
      static_type receiver = .ok rt → rt.method_named m = some (ps, ret) →
      ps.length ≠ args.length →
      check_types (.methodCall receiver m args) =
        .error (.javaError (.argumentCountMismatch
          ("Wrong number of arguments for " ++ rt.name ++ "." ++ m ++
            "(): expected " ++ toString ps.length ++ ", got " ++
            toString args.length))))
    ∧ (∀ (t : JavaType) (args : List JavaExpression) (ps : List JavaType),
      check_all args = .ok () →
      t.is_subtype_of JavaBuiltInTypes.OBJECT = true →
      t.constructor_parameter_types = some ps →
      ps.length ≠ args.length →
      check_types (.constructorCall t args) =
        .error (.javaError (.argumentCountMismatch
          ("Wrong number of arguments for " ++ t.name ++ " constructor: expected " ++
            toString ps.length ++ ", got " ++ toString args.length)))) := by
  constructor
  · intro receiver m args rt ret ps h1 h2 h3 h4 h5
    simp [check_types, h1, h2, h3, h4, h5]
  · intro t args ps h2 hinst hctor h5
    simp [check_types, h2, hinst, hctor, h5]

/-- C1 witness: `dog.feed(lit)` supplies 1 argument for 2 parameters and
`new Dog(lit)` supplies 1 for 0; both raise `ArgumentCountMismatch`. -/
theorem claim_C1_witness :
    check_types (.methodCall (.variable "d" tDog) "feed" [.literal "hi" tString]) =
      .error (.javaError (.argumentCountMismatch
        "Wrong number of arguments for Dog.feed(): expected 2, got 1"))
    ∧ check_types (.constructorCall tDog [.literal "hi" tString]) =
      .error (.javaError (.argumentCountMismatch
        "Wrong number of arguments for Dog constructor: expected 0, got 1")) :=
  ⟨claim_C1.1 (.variable "d" tDog) "feed" [.literal "hi" tString] tDog tString
      [tString, tString] rfl rfl rfl rfl (by decide),
   claim_C1.2 tDog [.literal "hi" tString] [] rfl rfl rfl (by decide)⟩

/-- C4: for a constructor call whose arguments all check successfully,
`IllegalInstantiation` is raised exactly when the instantiated type is
not a subtype of the object root, and that check pre-empts both the
constructor-signature query and the argument-count check (a
non-instantiable type need not even have a constructor). -/
theorem claim_C4 :
    (∀ (t : JavaType) (args : List JavaExpression),
      check_all args = .ok () →
      t.is_subtype_of JavaBuiltInTypes.OBJECT = false →
      check_types (.constructorCall t args) =
        .error (.javaError (.illegalInstantiation
          ("Type " ++ t.name ++ " is not instantiable"))))
    ∧ (∀ (t : JavaType) (args : List JavaExpression),
      check_all args = .ok () →
      t.is_subtype_of JavaBuiltInTypes.OBJECT = true →
      ∀ msg, check_types (.constructorCall t args) ≠
        .error (.javaError (.illegalInstantiation msg))) := by
  constructor
  · intro t args h2 hinst
    simp [check_types, h2, hinst]
  · intro t args h2 hinst msg h
    cases hctor : t.constructor_parameter_types with
    | none => simp [check_types, h2, hinst, hctor] at h
    | some ps =>
      by_cases h5 : ps.length = args.length
      · cases h6 : check_argument_match args ps with
        | error e6 =>
          have h7 : e6 = .javaError (.illegalInstantiation msg) := by
            simp only [check_types, h2, hinst, hctor, h5, ne_eq,
              not_true_eq_false, if_false, h6, Except.error.injEq] at h
            simpa using h
          rcases check_argument_match_from_error ps args 0 e6 h6 with hk | ⟨m2, hk⟩ <;>
            simp [hk] at h7
        | ok b =>
          cases b <;> simp [check_types, h2, hinst, hctor, h5, h6] at h
      · simp [check_types, h2, hinst, hctor, h5] at h

/-- C4 witness: `new int()` raises `IllegalInstantiation` even with zero
arguments, while `new Dog()`'s target is instantiable and can never
produce that error. -/
theorem claim_C4_witness :
    check_types (.constructorCall JavaBuiltInTypes.INT []) =
      .error (.javaError (.illegalInstantiation
        ("Type " ++ JavaBuiltInTypes.INT.name ++ " is not instantiable")))
    ∧ check_types (.constructorCall tDog []) ≠
      .error (.javaError (.illegalInstantiation "Type Dog is not instantiable")) :=
  ⟨claim_C4.1 JavaBuiltInTypes.INT [] rfl rfl,
   claim_C4.2 tDog [] rfl rfl "Type Dog is not instantiable"⟩

/-- C6: a failing sub-expression's error is always the one reported:
each composite node checks its sub-expressions first, and the first
sub-expression error propagates unchanged, pre-empting every check of
the node itself; within an argument list, the first failing argument
(after any passing prefix) determines the error. -/
theorem claim_C6 :
    (∀ (lhs rhs : JavaExpression) (e : PyError),
      check_types lhs = .error e →
      check_types (.assignment lhs rhs) = .error e)
    ∧ (∀ (lhs rhs : JavaExpression) (e : PyError),
      check_types lhs = .ok () → check_types rhs = .error e →
      check_types (.assignment lhs rhs) = .error e)
    ∧ (∀ (receiver : JavaExpression) (m : String) (args : List JavaExpression)
        (e : PyError),
      check_types receiver = .error e →
      check_types (.methodCall receiver m args) = .error e)
    ∧ (∀ (receiver : JavaExpression) (m : String) (args : List JavaExpression)
        (e : PyError),
      check_types receiver = .ok () → check_all args = .error e →
      check_types (.methodCall receiver m args) = .error e)
    ∧ (∀ (t : JavaType) (args : List JavaExpression) (e : PyError),
      check_all args = .error e →
      check_types (.constructorCall t args) = .error e)
    ∧ (∀ (pre post : List JavaExpression) (a : JavaExpression) (e : PyError),
      (∀ b ∈ pre, check_types b = .ok ()) → check_types a = .error e →
      check_all (pre ++ a :: post) = .error e) := by
  refine ⟨?_, ?_, ?_, ?_, ?_, ?_⟩
  · intro lhs rhs e h
    simp [check_types, h]
  · intro lhs rhs e h1 h2
    simp [check_types, h1, h2]
  · intro receiver m args e h
    simp [check_types, h]
  · intro receiver m args e h1 h2
    simp [check_types, h1, h2]
  · intro t args e h
    simp [check_types, h]
  · intro pre
    induction pre with
    | nil =>
      intro post a e _ ha
      simp [check_all, ha]
    | cons b rest ih =>
      intro post a e hpre ha
      have hb : check_types b = .ok () := hpre b (by simp)
      have hrest := ih post a e (fun c hc => hpre c (by simp [hc])) ha
      simp [check_all, hb, hrest]

/-- C6 witness: the `NoSuchMethod` error of a malformed lhs propagates
through an assignment unchanged, and the `IllegalInstantiation` error of
a malformed second argument propagates through a constructor call after
a passing first argument. -/
theorem claim_C6_witness :
    check_types (.assignment (.methodCall (.variable "d" tDog) "woof" [])
        (.variable "a" tAnimal)) =
      .error (.javaError (.noSuchMethod "Dog has no method named woof"))
    ∧ check_all [.literal "hi" tString, .constructorCall JavaBuiltInTypes.INT []] =
      .error (.javaError (.illegalInstantiation "Type int is not instantiable"))
    ∧ check_types (.constructorCall tDog
        [.literal "hi" tString, .constructorCall JavaBuiltInTypes.INT []]) =
      .error (.javaError (.illegalInstantiation "Type int is not instantiable")) :=
  ⟨claim_C6.1 (.methodCall (.variable "d" tDog) "woof" []) (.variable "a" tAnimal)
      (.javaError (.noSuchMethod "Dog has no method named woof")) rfl,
   claim_C6.2.2.2.2.2 [.literal "hi" tString] [] (.constructorCall JavaBuiltInTypes.INT [])
      (.javaError (.illegalInstantiation "Type int is not instantiable"))
      (by intro b hb; cases hb with
        | head => rfl
        | tail _ h => cases h) rfl,
   claim_C6.2.2.2.2.1 tDog [.literal "hi" tString, .constructorCall JavaBuiltInTypes.INT []]
      (.javaError (.illegalInstantiation "Type int is not instantiable")) rfl⟩

/-- C3: for a call that passes signature resolution with matching
argument count, `check_types` raises `TypeMismatch` exactly when some
position `j` (in declared order) pairs an argument whose static type is
not a subtype of parameter type `j`; the raised error is the single
aggregate one naming both full type lists (never one error per
position), and with no mismatching position the call checks cleanly. -/
theorem claim_C3 :
    (∀ (receiver : JavaExpression) (m : String) (args : List JavaExpression)
        (rt ret : JavaType) (ps : List JavaType),
      check_types receiver = .ok () → check_all args = .ok () →
      static_type receiver = .ok rt → rt.method_named m = some (ps, ret) →
      ps.length = args.length →
      ((check_types (.methodCall receiver m args) =
          .error (.javaError (.typeMismatch
            (rt.name ++ "." ++ m ++ "() expects arguments of type " ++
              _names_types ps ++ ", but got " ++ _names_exprs args))) ↔
        ∃ (j : Nat) (a : JavaExpression) (p t : JavaType),
          args[j]? = some a ∧ ps[j]? = some p ∧
          static_type a = .ok t ∧ t.is_subtype_of p = false)
      ∧ ((¬ ∃ (j : Nat) (a : JavaExpression) (p t : JavaType),
          args[j]? = some a ∧ ps[j]? = some p ∧
          static_type a = .ok t ∧ t.is_subtype_of p = false) →
        check_types (.methodCall receiver m args) = .ok ())))
    ∧ (∀ (t0 : JavaType) (args : List JavaExpression) (ps : List JavaType),
      check_all args = .ok () →
      t0.is_subtype_of JavaBuiltInTypes.OBJECT = true →
      t0.constructor_parameter_types = some ps →
      ps.length = args.length →
      ((check_types (.constructorCall t0 args) =
          .error (.javaError (.typeMismatch
            (t0.name ++ " constructor expects arguments of type " ++
              _names_types ps ++ ", but got " ++ _names_exprs args))) ↔
        ∃ (j : Nat) (a : JavaExpression) (p t : JavaType),
          args[j]? = some a ∧ ps[j]? = some p ∧
          static_type a = .ok t ∧ t.is_subtype_of p = false)
      ∧ ((¬ ∃ (j : Nat) (a : JavaExpression) (p t : JavaType),
          args[j]? = some a ∧ ps[j]? = some p ∧
          static_type a = .ok t ∧ t.is_subtype_of p = false) →
        check_types (.constructorCall t0 args) = .ok ()))) := by
  have main : ∀ (args : List JavaExpression) (ps : List JavaType),
      check_all args = .ok () → ps.length = args.length →
      check_argument_match args ps = .ok (allMatch args ps) ∧
      (allMatch args ps = false ↔
        ∃ (j : Nat) (a : JavaExpression) (p t : JavaType),
          args[j]? = some a ∧ ps[j]? = some p ∧
          static_type a = .ok t ∧ t.is_subtype_of p = false) := by
    intro args ps hargs hlen
    have hst : ∀ a ∈ args, ∃ t, static_type a = .ok t := fun a ha =>
      static_of_check a ((check_all_ok_iff args).mp hargs a ha)
    exact ⟨check_argument_match_eval args ps (by omega) hst,
      allMatch_false_iff args ps hst⟩
  constructor
  · intro receiver m args rt ret ps h1 h2 h3 h4 h5
    obtain ⟨hcam, hiff⟩ := main args ps h2 h5
    cases hall : allMatch args ps with
    | true =>
      have hres : check_types (.methodCall receiver m args) = .ok () := by
        rw [hall] at hcam
        simp [check_types, h1, h2, h3, h4, h5, hcam]
      constructor
      · rw [hres]
        constructor
        · intro hcontra; cases hcontra
        · intro hex
          rw [hiff.mpr hex] at hall
          cases hall
      · intro _; exact hres
    | false =>
      have hres : check_types (.methodCall receiver m args) =
          .error (.javaError (.typeMismatch
            (rt.name ++ "." ++ m ++ "() expects arguments of type " ++
              _names_types ps ++ ", but got " ++ _names_exprs args))) := by
        rw [hall] at hcam
        simp [check_types, h1, h2, h3, h4, h5, hcam]
      refine ⟨⟨fun _ => hiff.mp hall, fun _ => hres⟩, fun hnot => ?_⟩
      exact absurd (hiff.mp hall) hnot
  · intro t0 args ps h2 hinst hctor h5
    obtain ⟨hcam, hiff⟩ := main args ps h2 h5
    cases hall : allMatch args ps with
    | true =>
      have hres : check_types (.constructorCall t0 args) = .ok () := by
        rw [hall] at hcam
        simp [check_types, h2, hinst, hctor, h5, hcam]
      constructor
      · rw [hres]
        constructor
        · intro hcontra; cases hcontra
        · intro hex
          rw [hiff.mpr hex] at hall
          cases hall
      · intro _; exact hres
    | false =>
      have hres : check_types (.constructorCall t0 args) =
          .error (.javaError (.typeMismatch
            (t0.name ++ " constructor expects arguments of type " ++
              _names_types ps ++ ", but got " ++ _names_exprs args))) := by
        rw [hall] at hcam
        simp [check_types, h2, hinst, hctor, h5, hcam]
      refine ⟨⟨fun _ => hiff.mp hall, fun _ => hres⟩, fun hnot => ?_⟩
      exact absurd (hiff.mp hall) hnot

/-- C3 witness: `dog.feed(i, s)` with an `int` first argument for a
`(String, String)` signature raises the single aggregate `TypeMismatch`
naming both full argument-type lists. -/
theorem claim_C3_witness :
    check_types (.methodCall (.variable "d" tDog) "feed"
        [.variable "i" JavaBuiltInTypes.INT, .literal "hi" tString]) =
      .error (.javaError (.typeMismatch
        (tDog.name ++ "." ++ "feed" ++ "() expects arguments of type " ++
          _names_types [tString, tString] ++ ", but got " ++
          _names_exprs [.variable "i" JavaBuiltInTypes.INT, .literal "hi" tString]))) :=
  ((claim_C3.1 (.variable "d" tDog) "feed"
      [.variable "i" JavaBuiltInTypes.INT, .literal "hi" tString]
      tDog tString [tString, tString] rfl rfl rfl rfl rfl).1).mpr
    ⟨0, .variable "i" JavaBuiltInTypes.INT, tString, JavaBuiltInTypes.INT,
      rfl, rfl, rfl, rfl⟩

/-- C9: the out-of-range branch of the indexing in
`check_argument_match` is unreachable whenever the expected-type list is
no longer than the given-argument list — as at both call sites, which
compare the counts first — and consequently no `check_types` invocation
ever produces the IndexError of that branch. -/
theorem claim_C9 :
    (∀ (given : List JavaExpression) (expected : List JavaType),
      expected.length ≤ given.length →
      check_argument_match given expected ≠ .error .indexError)
    ∧ (∀ (e : JavaExpression), check_types e ≠ .error .indexError) := by
  constructor
  · intro given expected hlen
    exact check_argument_match_from_no_indexError expected given 0 (by omega)
  · exact check_types_no_indexError

/-- C9 witness: concrete instances of both parts. -/
theorem claim_C9_witness :
    check_argument_match [.literal "hi" tString] [tString] ≠ .error .indexError
    ∧ check_types (.methodCall (.variable "d" tDog) "feed"
        [.literal "hi" tString]) ≠ .error .indexError :=
  ⟨claim_C9.1 [.literal "hi" tString] [tString] (by decide),
   claim_C9.2 (.methodCall (.variable "d" tDog) "feed" [.literal "hi" tString])⟩
